import Mathlib

/-!
Verification of the ON backend (repository on-backend).

The repository holds three near-identical Express servers:
the two variants concatenated in src/server.js (the first speaking to
Vertex AI TTS, the second adding a Supabase-backed jobs table with the
routes POST /suggest/jobs and GET /suggest/jobs/:id), and the smaller
variant in src/unnamed/part_000.

This file is a shallow embedding of the request handlers and of the pure
post-processing they perform.  External collaborators (the OpenAI chat
endpoint, the Gemini and Vertex TTS endpoints, the Supabase client) are
modelled as oracles: functions supplied as parameters that return one of
the outcomes the handlers distinguish (transport exception, non-2xx
response, unparsable body, parsed value).  JavaScript strings are
modelled as Lean strings, with slice and trim acting on the character
list; fetch is assumed available (Node 18+), and the Supabase client is
assumed configured, since every claim concerns the configured paths.
-/

namespace OnBackend

/-! ### Text cleanup: normalizeDa (identical in all three variants) -/

/-- JS String.prototype.trim removes these whitespace code points.
(The less common Unicode space code points also stripped by JS do not
occur in any modelled input and are omitted.) -/
def isJsSpace (c : Char) : Bool :=
  c.val = 32 || c.val = 9 || c.val = 10 || c.val = 13 || c.val = 11 ||
  c.val = 12 || c.val = 160 || c.val = 65279

/-- The two quote characters removed by the regex ["\x27] in normalizeDa:
code points 34 (double quote) and 39 (apostrophe). -/
def isQuoteCh (c : Char) : Bool := c.val = 34 || c.val = 39

/-- A UTF-16 surrogate pair, i.e. a code point at or above 0x10000 (the
emoji-removal regex of normalizeDa matches exactly these). -/
def isAstral (c : Char) : Bool := decide (c.val ≥ 0x10000)

/-- Characters stripped from the end of the string by the regex on the
class of question mark, exclamation mark and horizontal ellipsis. -/
def isTrailPunctCh (c : Char) : Bool :=
  c.val = 63 || c.val = 33 || c = '…'

def trimChars (l : List Char) : List Char :=
  ((l.dropWhile isJsSpace).reverse.dropWhile isJsSpace).reverse

def stripTrailPunct (l : List Char) : List Char :=
  (l.reverse.dropWhile isTrailPunctCh).reverse

/-- normalizeDa from the source: trim, drop quotes, drop surrogate pairs
(two independent character-wise replaces, rendered as one filter over
the disjunction), strip trailing question/exclamation/ellipsis marks,
trim again. -/
def normalizeDa (s : String) : String :=
  ⟨trimChars (stripTrailPunct ((trimChars s.data).filter
    (fun c => !(isQuoteCh c || isAstral c))))⟩

/-- The `String(text).slice(0, 3000)` truncation applied by every route
before the collaborator payload is built. -/
def take3000 (t : String) : String := ⟨t.data.take 3000⟩

/-! ### Classification post-processing -/

structure Card where
  text : String
deriving Repr, DecidableEq

/-- One element of a `cards` array as returned by the collaborator; the
`text` property may be absent. -/
structure CardIn where
  text : Option String
deriving Repr, DecidableEq

/-- The clean helper of /classifysuggest and suggestClassify:
slice to TOP_K, normalize each text (missing text coerced to the empty
string), keep only cards whose normalized text is non-empty. -/
def clean (topk : Nat) (arr : Option (List CardIn)) : List Card :=
  (((arr.getD []).take topk).map
    (fun c => ({ text := normalizeDa (c.text.getD "") } : Card))).filter
    (fun c => c.text ≠ "")

structure CatIn where
  cards : Option (List CardIn)
deriving Repr, DecidableEq

/-- The parsed collaborator reply for the classification task; every
category (and its cards array) may be missing. -/
structure ClassifyOut where
  situation : Option CatIn
  feeling : Option CatIn
  thought : Option CatIn
  behavior : Option CatIn
deriving Repr, DecidableEq

structure Cat where
  cards : List Card
deriving Repr, DecidableEq

structure ClassifyResult where
  situation : Cat
  feeling : Cat
  thought : Cat
  behavior : Cat
deriving Repr, DecidableEq

/-- The result object built by suggestClassify (server.js, TOP_K = 3)
and by the part_000 route (TOP_K = 2): clean applied to each of the four
optional `cards` arrays. -/
def classifyResult (topk : Nat) (out : ClassifyOut) : ClassifyResult :=
  { situation := ⟨clean topk (out.situation.bind (·.cards))⟩
    feeling := ⟨clean topk (out.feeling.bind (·.cards))⟩
    thought := ⟨clean topk (out.thought.bind (·.cards))⟩
    behavior := ⟨clean topk (out.behavior.bind (·.cards))⟩ }

/-! ### Practice (reframing) post-processing -/

/-- The JavaScript value found in the `text` slot of a practice item:
absent, a string, or (through the `s.text || s` fallback on an object
without usable text) a plain object. -/
inductive JsText where
  | undef
  | str (s : String)
  | obj
deriving Repr, DecidableEq

/-- What `String(t || "")` inside normalizeDa yields for each case;
a plain object renders as its default object string. -/
def JsText.coerced : JsText → String
  | .undef => ""
  | .str s => s
  | .obj => "[object Object]"

structure PItem where
  text : JsText
deriving Repr, DecidableEq

/-- An element of a collaborator `sentences` array: a bare string or an
object with an optional `text` property. -/
inductive SentenceIn where
  | plain (s : String)
  | card (text : Option String)
deriving Repr, DecidableEq

/-- The map `s => ({ text: s.text || s })`: a bare string has no `text`
property so the fallback keeps the string itself; an object with a
truthy text keeps that text; otherwise the fallback is the object. -/
def sentToItem : SentenceIn → PItem
  | .plain s => ⟨.str s⟩
  | .card (some t) => if t = "" then ⟨.obj⟩ else ⟨.str t⟩
  | .card none => ⟨.obj⟩

structure PracticeOut where
  practice_sets_json : Option (List PItem)
  sentences : Option (List SentenceIn)
deriving Repr, DecidableEq

/-- Array extraction at the head of every practice route:
practice_sets_json when it is an array, else the mapped sentences
array, else the empty array. -/
def extractPracticeArr (out : PracticeOut) : List PItem :=
  match out.practice_sets_json with
  | some a => a
  | none =>
    match out.sentences with
    | some s => s.map sentToItem
    | none => []

def normCard (x : PItem) : Card := ⟨normalizeDa x.text.coerced⟩

def defaultSentence : String := "나는 지금의 나를 있는 그대로 둔다"

/-- The padding card pushed by the server.js variants. -/
def padCardV2 : Card := ⟨defaultSentence⟩

/-- part_000 pushes the normalized default sentence. -/
def padCard0 : Card := ⟨normalizeDa defaultSentence⟩

/-- The while-loop that pushes the padding card until the array holds at
least 7 entries. -/
def padTo7 (c : Card) (l : List Card) : List Card :=
  l ++ List.replicate (7 - l.length) c

/-- suggestPractice in the second server.js variant: slice to 7,
normalize, then `.filter(Boolean)` — on an array of objects this keeps
every element, hence the constant-true predicate — then pad to 7. -/
def practiceArrV2 (raw : List PItem) : List Card :=
  padTo7 padCardV2 (((raw.take 7).map normCard).filter (fun _ => true))

/-- The /practice route of the first server.js variant: same pipeline
but the filter drops cards whose normalized text is empty. -/
def practiceArrV1 (raw : List PItem) : List Card :=
  padTo7 padCardV2 (((raw.take 7).map normCard).filter (fun c => c.text ≠ ""))

/-- part_000: the map returns null for an empty normalized text, and the
following filter(Boolean) drops the nulls — together a filterMap. -/
def part000PracticeItem (it : PItem) : Option Card :=
  let t := normalizeDa it.text.coerced
  if t = "" then none else some ⟨t⟩

def part000PracticeArr (raw : List PItem) : List Card :=
  padTo7 padCard0 ((raw.take 7).filterMap part000PracticeItem)

/-! ### Speech synthesis fan-out -/

/-- One part of the TTS response envelope, with the three field-name
variants probed by the code.  A field holds some data only when the data
string is truthy (non-empty), matching the JS truthiness test. -/
structure RespPart where
  inlineData : Option String
  inline_data : Option String
  audio : Option String
deriving Repr, DecidableEq

/-- The per-part probe of the Gemini variant: inlineData, then
inline_data, then audio. -/
def partAudioG (p : RespPart) : Option String :=
  (p.inlineData.orElse (fun _ => p.inline_data)).orElse (fun _ => p.audio)

/-- The Gemini loop over parts breaks at the first part exposing audio
under any of the three names. -/
def findAudioG (parts : List RespPart) : Option String :=
  (parts.filterMap partAudioG).head?

/-- The Vertex variant probes only inline_data. -/
def findAudioV (parts : List RespPart) : Option String :=
  (parts.filterMap (·.inline_data)).head?

/-- Outcome of one TTS request, as distinguished by the handlers:
a thrown exception, a non-2xx response, or a parsed body whose
candidate parts are handed over. -/
inductive TTSOutcome where
  | threw (msg : String)
  | httpErr (status : Nat) (body : String)
  | okResp (parts : List RespPart)
deriving Repr, DecidableEq

/-- Gemini per-sentence result: exceptions and HTTP errors are caught
and become null; otherwise the probed audio (or null when absent). -/
def ttsAudioG : TTSOutcome → Option String
  | .threw _ => none
  | .httpErr _ _ => none
  | .okResp parts => findAudioG parts

def ttsAudioV : TTSOutcome → Option String
  | .threw _ => none
  | .httpErr _ _ => none
  | .okResp parts => findAudioV parts

/-- Index-aware map: models the per-sentence fan-out, which issues one
independent call per input sentence and places its result at the same
index (Promise.all keeps input order; the Vertex loop pushes results in
input order). -/
def mapIdxFrom (f : Nat → α → β) : Nat → List α → List β
  | _, [] => []
  | i, a :: t => f i a :: mapIdxFrom f (i + 1) t

/-- synthesizeLinesWithGeminiTTS: empty input gives an empty result;
without an API key every entry is null; otherwise one independent call
per sentence, a falsy (empty) sentence resolving to null directly. -/
def synthesizeLinesWithGeminiTTS (hasKey : Bool)
    (call : Nat → String → TTSOutcome) (lines : List String) :
    List (Option String) :=
  if lines.isEmpty then []
  else if !hasKey then lines.map (fun _ => none)
  else mapIdxFrom
    (fun i text => if text = "" then none else ttsAudioG (call i text)) 0 lines

/-- Outcome of the single access-token acquisition of the Vertex
variant: the helper may throw, or return null, or return a token. -/
inductive TokenOutcome where
  | threw (msg : String)
  | got (tok : Option String)
deriving Repr, DecidableEq

/-- synthesizeLinesWithVertexTTS: empty input gives an empty result;
missing auth configuration, a token exception or an empty token make
every entry null; otherwise the sequential per-sentence loop. -/
def synthesizeLinesWithVertexTTS (configured : Bool) (tok : TokenOutcome)
    (call : Nat → String → TTSOutcome) (lines : List String) :
    List (Option String) :=
  if lines.isEmpty then []
  else if !configured then lines.map (fun _ => none)
  else
    match tok with
    | .threw _ => lines.map (fun _ => none)
    | .got none => lines.map (fun _ => none)
    | .got (some _) =>
      mapIdxFrom
        (fun i text => if text = "" then none else ttsAudioV (call i text)) 0 lines

/-! ### The OpenAI collaborator boundary -/

/-- Outcome of one callOpenAI round trip, as the code distinguishes
failures: fetch threw (network), non-2xx status (the handler throws
with the response text appended to OPENAI ERROR), body JSON that does
not parse, or a parsed value. -/
inductive LLMOutcome (α : Type) where
  | transportFail (msg : String)
  | httpFail (body : String)
  | parseFail (msg : String)
  | ok (v : α)
deriving Repr, DecidableEq

/-- callOpenAI collapses the three failure classes into one thrown
error, which the embedding renders as Except.error with the message the
code throws. -/
def callOutcome : LLMOutcome α → Except String α
  | .transportFail m => .error m
  | .httpFail b => .error ("OPENAI ERROR " ++ b)
  | .parseFail m => .error m
  | .ok v => .ok v

structure Config where
  openaiKey : Bool
  geminiKey : Bool
deriving Repr, DecidableEq

/-- The external collaborators of the second server.js variant, as
oracles: the classification call, the practice call, and one TTS call
per sentence index. -/
structure LLMOracle where
  classifyCall : String → LLMOutcome ClassifyOut
  practiceCall : String → LLMOutcome PracticeOut
  ttsCall : Nat → String → TTSOutcome

/-- The user JSON sent by suggestClassify: only the truncated text. -/
structure ClassifyUserJson where
  text : String
deriving Repr, DecidableEq

structure PracticeUserJson where
  text : String
deriving Repr, DecidableEq

/-- The user JSON of the part_000 classify route: truncated text, lang
and the fixed top_k. -/
structure Part0UserJson where
  text : String
  lang : String
  top_k : Nat
deriving Repr, DecidableEq

structure TtsMeta where
  provider : String
  voice : String
  model : String
deriving Repr, DecidableEq

structure ClassifyResponse where
  ok : Bool
  used_model : String
  result : ClassifyResult
deriving Repr, DecidableEq

structure PracticeResponse where
  ok : Bool
  used_model : String
  practice_sets_json : List Card
  audio_base64_list : List (Option String)
  tts : TtsMeta
deriving Repr, DecidableEq

/-- suggestClassify of the second server.js variant, traced: the value
(or thrown error) together with the list of payloads actually sent to
the collaborator.  A missing API key throws inside callOpenAI before
any request is issued. -/
def suggestClassifyT (cfg : Config) (o : LLMOracle) (text : String) :
    Except String ClassifyResponse × List ClassifyUserJson :=
  if !cfg.openaiKey then (.error "OPENAI_API_KEY 없음", [])
  else
    let payload : ClassifyUserJson := ⟨take3000 text⟩
    ((callOutcome (o.classifyCall payload.text)).map (fun out =>
      { ok := true, used_model := "gpt-4.1-mini"
        result := classifyResult 3 out }),
     [payload])

/-- suggestPractice of the second server.js variant, traced. -/
def suggestPracticeT (cfg : Config) (o : LLMOracle) (text : String) :
    Except String PracticeResponse × List PracticeUserJson :=
  if !cfg.openaiKey then (.error "OPENAI_API_KEY 없음", [])
  else
    let payload : PracticeUserJson := ⟨take3000 text⟩
    match callOutcome (o.practiceCall payload.text) with
    | .error m => (.error m, [payload])
    | .ok out =>
      let arr := practiceArrV2 (extractPracticeArr out)
      let audio :=
        synthesizeLinesWithGeminiTTS cfg.geminiKey o.ttsCall (arr.map (·.text))
      (.ok { ok := true, used_model := "gpt-5.1", practice_sets_json := arr
             audio_base64_list := audio
             tts := ⟨"google-gemini", "Leda", "gemini-2.5-flash-preview-tts"⟩ },
       [payload])

/-! ### The jobs table and its routes (second server.js variant) -/

structure JobInput where
  text : Option String
deriving Repr, DecidableEq

inductive JobResult where
  | classify (r : ClassifyResponse)
  | practice (r : PracticeResponse)
deriving Repr, DecidableEq

/-- One row of the Supabase jobs table, with the columns the code reads
and writes (created_at, a database-generated timestamp never used by
the handlers, is omitted). -/
structure JobRow where
  user_id : Option String
  type : String
  status : String
  input : Option JobInput
  result : Option JobResult
  error : Option String
deriving Repr, DecidableEq

/-- The jobs table: row identifiers are modelled as an increasing
natural counter (the database generates a fresh id per insert). -/
structure Store where
  nextId : Nat
  rows : List (Nat × JobRow)
deriving Repr, DecidableEq

/-- The select-single by id. -/
def Store.lookup (st : Store) (id : Nat) : Option JobRow :=
  (st.rows.find? (fun p => p.fst == id)).map Prod.snd

/-- Insert returning the fresh id, as insert().select(id).single(). -/
def Store.insertRow (st : Store) (r : JobRow) : Nat × Store :=
  (st.nextId, ⟨st.nextId + 1, st.rows ++ [(st.nextId, r)]⟩)

/-- update().eq(id): patch every row carrying the id. -/
def Store.updateRow (st : Store) (id : Nat) (f : JobRow → JobRow) : Store :=
  ⟨st.nextId, st.rows.map (fun p => if p.fst == id then (p.fst, f p.snd) else p)⟩

/-- Well-formedness of the modelled table: every stored id was issued
by the counter. -/
def Store.wf (st : Store) : Prop :=
  ∀ p ∈ st.rows, p.fst < st.nextId

def JobRow.patchRunning (j : JobRow) : JobRow :=
  { j with status := "running", error := none }

def JobRow.patchDone (r : JobResult) (j : JobRow) : JobRow :=
  { j with status := "done", result := some r, error := none }

def JobRow.patchError (m : String) (j : JobRow) : JobRow :=
  { j with status := "error", error := some m }

/-- `String(e?.message || e)`: a non-empty message passes through; an
Error with an empty message renders under its default name. -/
def jsErrString (m : String) : String := if m = "" then "Error" else m

/-- The body of runSuggestJob between the status updates: dispatch on
the job type, with the fallthrough throwing on an unknown type. -/
def runSuggestJobCore (cfg : Config) (o : LLMOracle) (ty : String)
    (input : Option JobInput) : Except String JobResult :=
  let text := (input.bind (·.text)).getD ""
  if ty = "suggest_classify" then
    (suggestClassifyT cfg o text).fst.map .classify
  else if ty = "suggest_practice" then
    (suggestPracticeT cfg o text).fst.map .practice
  else .error ("Unknown job type: " ++ ty)

/-- runSuggestJob: set status running, run the work, then write exactly
one terminal transition; every failure is caught and recorded on the
row.  The returned list is the sequence of status values written, in
order.  The Lean rendering is a total function: no outcome of the
oracle escapes as an error, mirroring the try/catch that encloses the
whole body. -/
def runSuggestJob (cfg : Config) (o : LLMOracle) (st : Store) (jobId : Nat)
    (ty : String) (input : Option JobInput) : Store × List String :=
  let st1 := st.updateRow jobId JobRow.patchRunning
  match runSuggestJobCore cfg o ty input with
  | .ok r => (st1.updateRow jobId (JobRow.patchDone r), ["running", "done"])
  | .error m =>
    (st1.updateRow jobId (JobRow.patchError (jsErrString m)), ["running", "error"])

structure SubmitReq where
  type : Option String
  input : Option JobInput
  user_id : Option String
deriving Repr, DecidableEq

/-- The submit response: the 400 branch for a falsy type, or the 200
body holding ok and jobId (and nothing else — in particular no reused
field exists in the source). -/
inductive SubmitResp where
  | badRequest (error : String)
  | okJob (jobId : Nat)
deriving Repr, DecidableEq

/-- A unit of background work handed to setTimeout. -/
structure JobTask where
  jobId : Nat
  type : String
  input : Option JobInput
deriving Repr, DecidableEq

/-- POST /suggest/jobs: reject a falsy type with 400; otherwise insert
a row with status queued, answer with the fresh id, and schedule the
execution.  The handler consults nothing but the request and the
counter — no dedupe lookup exists in the source. -/
def submitJob (st : Store) (req : SubmitReq) :
    SubmitResp × Store × List JobTask :=
  let ty := req.type.getD ""
  if ty = "" then (.badRequest "type is required", st, [])
  else
    let (id, st1) := st.insertRow
      { user_id := req.user_id, type := ty, status := "queued"
        input := req.input, result := none, error := none }
    (.okJob id, st1, [⟨id, ty, req.input⟩])

/-- The whole request handling: the response is produced by submitJob
alone; the scheduled tasks run afterwards against the oracle.  This
mirrors res.json being called before setTimeout fires. -/
def handleSubmit (cfg : Config) (o : LLMOracle) (st : Store)
    (req : SubmitReq) : SubmitResp × Store :=
  let (resp, st1, tasks) := submitJob st req
  (resp,
   tasks.foldl (fun s t => (runSuggestJob cfg o s t.jobId t.type t.input).fst) st1)

/-- The columns selected by GET /suggest/jobs/:id. -/
structure JobView where
  id : Nat
  type : String
  status : String
  result : Option JobResult
  error : Option String
deriving Repr, DecidableEq

inductive PollResp where
  | okJob (job : JobView)
  | notFound (error : String)
deriving Repr, DecidableEq

def PollResp.httpStatus : PollResp → Nat
  | .okJob _ => 200
  | .notFound _ => 404

/-- GET /suggest/jobs/:id: select-single; any failure (in particular an
unknown id, which makes single() reject) is caught and answered as 404
with the error message coerced through String(e?.message || e).
The message the select-single client raises is a parameter. -/
def pollJob (singleErr : String) (st : Store) (id : Nat) : PollResp :=
  match st.lookup id with
  | some j => .okJob ⟨id, j.type, j.status, j.result, j.error⟩
  | none => .notFound (jsErrString singleErr)

/-- The message the Supabase client attaches when single() matches no
row (error code PGRST116); used as a concrete instance of the
collaborator error message. -/
def pgrstNoRowsMsg : String :=
  "JSON object requested, multiple (or no) rows returned"

/-! ### The synchronous classify routes -/

inductive RouteOut (α : Type) where
  | ok (body : α)
  | badRequest (error : String)
  | serverError (error : String)
deriving Repr, DecidableEq

def RouteOut.httpStatus : RouteOut α → Nat
  | .ok _ => 200
  | .badRequest _ => 400
  | .serverError _ => 500

/-- The catch clause of part_000: err.message || server_error. -/
def serverErrMsg (m : String) : String := if m = "" then "server_error" else m

/-- POST /classifysuggest of part_000, traced with the payloads sent:
truncate, reject empty text with 400 before any collaborator call,
throw missing_openai_key before any request when the key is absent,
otherwise call the collaborator with text, lang and top_k = 2. -/
def part000Classify (hasKey : Bool)
    (o0 : Part0UserJson → LLMOutcome ClassifyOut)
    (textIn langIn : Option String) :
    RouteOut ClassifyResult × List Part0UserJson :=
  let text := take3000 (textIn.getD "")
  let lang := langIn.getD "ko"
  if text = "" then (.badRequest "empty_text", [])
  else if !hasKey then (.serverError (serverErrMsg "missing_openai_key"), [])
  else
    let payload : Part0UserJson := ⟨text, lang, 2⟩
    match callOutcome (o0 payload) with
    | .ok out => (.ok (classifyResult 2 out), [payload])
    | .error m => (.serverError (serverErrMsg m), [payload])

/-- POST /classifysuggest of the second server.js variant: no input
validation at all — suggestClassify is invoked directly on the body
text. -/
def v2Classify (cfg : Config) (o : LLMOracle) (textIn : Option String) :
    RouteOut ClassifyResponse × List ClassifyUserJson :=
  match suggestClassifyT cfg o (textIn.getD "") with
  | (.ok p, calls) => (.ok p, calls)
  | (.error m, calls) => (.serverError m, calls)

/-! ### Helper lemmas -/

theorem mapIdxFrom_length (f : Nat → α → β) (n : Nat) (l : List α) :
    (mapIdxFrom f n l).length = l.length := by
  induction l generalizing n with
  | nil => rfl
  | cons a t ih => simp [mapIdxFrom, ih]

theorem mapIdxFrom_getElem? (f : Nat → α → β) (n i : Nat) (l : List α) :
    (mapIdxFrom f n l)[i]? = l[i]?.map (f (n + i)) := by
  induction l generalizing n i with
  | nil => simp [mapIdxFrom]
  | cons a t ih =>
    cases i with
    | zero => simp [mapIdxFrom]
    | succ j =>
      have harith : n + 1 + j = n + (j + 1) := by omega
      simp only [mapIdxFrom, List.getElem?_cons_succ]
      rw [ih (n + 1) j, harith]

theorem find?_append_list (l₁ l₂ : List α) (p : α → Bool) :
    (l₁ ++ l₂).find? p = ((l₁.find? p).orElse (fun _ => l₂.find? p)) := by
  induction l₁ with
  | nil => simp
  | cons a t ih =>
    by_cases h : p a
    · simp [List.find?_cons, h]
    · simp only [List.cons_append, List.find?_cons, h]
      simpa [h] using ih

theorem find?_map_update (l : List (Nat × JobRow)) (id : Nat)
    (f : JobRow → JobRow) :
    ((l.map (fun p => if p.fst == id then (p.fst, f p.snd) else p)).find?
        (fun p => p.fst == id)).map Prod.snd
      = ((l.find? (fun p => p.fst == id)).map Prod.snd).map f := by
  induction l with
  | nil => rfl
  | cons a t ih =>
    by_cases h : a.fst = id
    · simp [List.find?_cons, h]
    · have hb : (a.fst == id) = false := by simpa using h
      simp only [List.map_cons, hb, if_neg, Bool.false_eq_true,
        not_false_iff, List.find?_cons, reduceIte]
      simpa [hb] using ih

theorem lookup_updateRow (st : Store) (id : Nat) (f : JobRow → JobRow) :
    (st.updateRow id f).lookup id = (st.lookup id).map f := by
  simpa [Store.updateRow, Store.lookup] using
    find?_map_update st.rows id f

theorem find?_eq_none_of_lt (l : List (Nat × JobRow)) (n : Nat)
    (h : ∀ p ∈ l, p.fst < n) : l.find? (fun p => p.fst == n) = none := by
  induction l with
  | nil => rfl
  | cons a t ih =>
    have ha : a.fst ≠ n := Nat.ne_of_lt (h a (by simp))
    have hb : (a.fst == n) = false := by simpa using ha
    simp only [List.find?_cons, hb]
    exact ih (fun p hp => h p (List.mem_cons_of_mem _ hp))

theorem lookup_none_of_wf (st : Store) (h : st.wf) :
    st.lookup st.nextId = none := by
  simp [Store.lookup, find?_eq_none_of_lt st.rows st.nextId h]

theorem padTo7_length (c : Card) (l : List Card) (h : l.length ≤ 7) :
    (padTo7 c l).length = 7 := by
  simp only [padTo7, List.length_append, List.length_replicate]
  omega

theorem filter_keep_all (l : List Card) :
    l.filter (fun _ => true) = l := by
  induction l with
  | nil => rfl
  | cons a t ih => simp [List.filter, ih]

theorem clean_length_le (topk : Nat) (arr : Option (List CardIn)) :
    (clean topk arr).length ≤ topk := by
  unfold clean
  calc ((((arr.getD []).take topk).map
          (fun c => ({ text := normalizeDa (c.text.getD "") } : Card))).filter
          (fun c => c.text ≠ "")).length
      ≤ (((arr.getD []).take topk).map
          (fun c => ({ text := normalizeDa (c.text.getD "") } : Card))).length :=
        List.length_filter_le _ _
    _ = ((arr.getD []).take topk).length := List.length_map _ _
    _ ≤ topk := by
        rw [List.length_take]; exact Nat.min_le_left _ _

theorem clean_text_ne (topk : Nat) (arr : Option (List CardIn)) (c : Card)
    (h : c ∈ clean topk arr) : c.text ≠ "" := by
  unfold clean at h
  simpa using List.of_mem_filter h

/-! ### Concrete fixtures used by counterexamples and witnesses -/

def st0 : Store := ⟨0, []⟩

def req0 : SubmitReq := ⟨some "suggest_classify", some ⟨some "hello"⟩, none⟩

/-! ### Claims -/

/-- Claim C1, counterexample.  The claim states that a second submission
with the same dedupe key (here: a byte-identical request, so any key
derived from caller, type and content coincides) returns the first
jobId with reused set and schedules no second execution.  The source
handler has no dedupe lookup: submitting req0 twice yields jobId 0 and
then jobId 1, the second submission schedules its own execution, and
the response constructor carries no reused field at all. -/
theorem C1_counterexample :
    (submitJob st0 req0).fst = SubmitResp.okJob 0 ∧
    (submitJob (submitJob st0 req0).snd.fst req0).fst = SubmitResp.okJob 1 ∧
    (1 : Nat) ≠ 0 ∧
    (submitJob (submitJob st0 req0).snd.fst req0).snd.snd =
      [⟨1, "suggest_classify", some ⟨some "hello"⟩⟩] := by
  refine ⟨rfl, rfl, by decide, rfl⟩

/-- Claim C1, amended: POST /suggest/jobs performs no deduplication.
Every submission carrying a type creates a fresh job under a
previously-unused identifier, answers ok with that identifier (there is
no reused field), and schedules exactly one execution of the work; the
existing rows do not influence the response. -/
theorem C1_amended (st : Store) (req : SubmitReq) (ty : String)
    (hwf : st.wf) (hty : req.type = some ty) (hne : ty ≠ "") :
    (submitJob st req).fst = SubmitResp.okJob st.nextId ∧
    (submitJob st req).snd.snd = [⟨st.nextId, ty, req.input⟩] ∧
    st.lookup st.nextId = none ∧
    (submitJob st req).snd.fst.lookup st.nextId =
      some { user_id := req.user_id, type := ty, status := "queued"
             input := req.input, result := none, error := none } ∧
    (submitJob st req).snd.fst.wf ∧
    ∀ rows' : List (Nat × JobRow),
      (submitJob ⟨st.nextId, rows'⟩ req).fst = (submitJob st req).fst := by
  have hget : req.type.getD "" = ty := by rw [hty]; rfl
  have hsub : submitJob st req =
      (SubmitResp.okJob st.nextId,
       ⟨st.nextId + 1, st.rows ++ [(st.nextId,
          { user_id := req.user_id, type := ty, status := "queued"
            input := req.input, result := none, error := none })]⟩,
       [⟨st.nextId, ty, req.input⟩]) := by
    simp [submitJob, hget, hne, Store.insertRow]
  refine ⟨by rw [hsub], by rw [hsub], lookup_none_of_wf st hwf, ?_, ?_, ?_⟩
  · rw [hsub]
    simp only [Store.lookup]
    rw [find?_append_list, find?_eq_none_of_lt st.rows st.nextId hwf]
    simp
  · rw [hsub]
    intro p hp
    rcases List.mem_append.mp hp with hl | hr
    · exact Nat.lt_succ_of_lt (hwf p hl)
    · simp only [List.mem_singleton] at hr
      subst hr
      exact Nat.lt_succ_self _
  · intro rows'
    simp [submitJob, hget, hne, Store.insertRow]

/-- Claim C1, witness for the amended theorem at a concrete store and
request. -/
theorem C1_witness :
    (submitJob st0 req0).fst = SubmitResp.okJob 0 ∧
    (submitJob st0 req0).snd.snd =
      [⟨0, "suggest_classify", some ⟨some "hello"⟩⟩] := by
  have h := C1_amended st0 req0 "suggest_classify"
    (by intro p hp; cases hp) rfl (by decide)
  exact ⟨h.1, h.2.1⟩

/-- Claim C2, counterexample.  The claim states that every created job
enters the store with status running and that no job ever carries the
status queued; but the row inserted by POST /suggest/jobs for req0 has
status queued, which differs from running. -/
theorem C2_counterexample :
    ((submitJob st0 req0).snd.fst.lookup 0).map (fun j => j.status) =
      some "queued" ∧
    some ("queued" : String) ≠ some ("running" : String) := by
  refine ⟨rfl, by decide⟩

/-- Claim C2, amended: a job is created with status queued; the
background runner then writes status running as its first transition
and exactly one terminal transition (done or error) afterwards, so
queued is observable between submission and execution start. -/
theorem C2_amended :
    (∀ (st : Store) (req : SubmitReq) (ty : String),
        req.type = some ty → ty ≠ "" →
        (submitJob st req).snd.fst.rows.getLast? =
          some (st.nextId,
            { user_id := req.user_id, type := ty, status := "queued"
              input := req.input, result := none, error := none })) ∧
    (∀ (cfg : Config) (o : LLMOracle) (st : Store) (id : Nat) (ty : String)
        (inp : Option JobInput),
        (runSuggestJob cfg o st id ty inp).snd = ["running", "done"] ∨
        (runSuggestJob cfg o st id ty inp).snd = ["running", "error"]) := by
  constructor
  · intro st req ty hty hne
    have hget : req.type.getD "" = ty := by rw [hty]; rfl
    simp [submitJob, hget, hne, Store.insertRow]
  · intro cfg o st id ty inp
    rcases h : runSuggestJobCore cfg o ty inp with m | r
    · right; simp [runSuggestJob, h]
    · left; simp [runSuggestJob, h]

/-- Claim C2, witness for the amended theorem at a concrete store and
request. -/
theorem C2_witness :
    (submitJob st0 req0).snd.fst.rows.getLast? =
      some (0, { user_id := none, type := "suggest_classify"
                 status := "queued", input := some ⟨some "hello"⟩
                 result := none, error := none }) := by
  exact C2_amended.1 st0 req0 "suggest_classify" rfl (by decide)

/-- Claim C6: the HTTP response of the submit route is the one computed
by submitJob alone, before any scheduled task runs, and it does not
depend on the oracle that executes the background work — the submission
returns the same response whatever the collaborator does or however
long it takes. -/
theorem C6_nonblocking (cfg cfg' : Config) (o o' : LLMOracle) (st : Store)
    (req : SubmitReq) :
    (handleSubmit cfg o st req).fst = (submitJob st req).fst ∧
    (handleSubmit cfg o st req).fst = (handleSubmit cfg' o' st req).fst := by
  constructor <;> rcases hs : submitJob st req with ⟨r, st1, ts⟩ <;>
    simp [handleSubmit, hs]

/-- Claim C7, counterexample.  The claim states the 404 body is
ok false with the error string job_not_found; the handler instead
forwards the message of the failed select-single (for the Supabase
client the PGRST116 text), which is not the literal job_not_found. -/
theorem C7_counterexample :
    pollJob pgrstNoRowsMsg st0 5 = PollResp.notFound pgrstNoRowsMsg ∧
    pgrstNoRowsMsg ≠ "job_not_found" ∧
    (pollJob pgrstNoRowsMsg st0 5).httpStatus = 404 := by
  refine ⟨rfl, by decide, rfl⟩

/-- Claim C7, amended: polling an unknown jobId answers HTTP 404 with
ok false, but the error field holds the select-single failure message
coerced through String(e?.message || e), not the literal
job_not_found. -/
theorem C7_amended (m : String) (st : Store) (id : Nat)
    (h : st.lookup id = none) :
    pollJob m st id = PollResp.notFound (jsErrString m) ∧
    (pollJob m st id).httpStatus = 404 := by
  simp [pollJob, h, PollResp.httpStatus]

/-- Claim C7, witness for the amended theorem on the empty store. -/
theorem C7_witness :
    pollJob "boom" st0 3 = PollResp.notFound (jsErrString "boom") ∧
    (pollJob "boom" st0 3).httpStatus = 404 := by
  exact C7_amended "boom" st0 3 (by decide)

def cfgFull : Config := ⟨true, true⟩

def oracleFail : LLMOracle :=
  ⟨fun _ => .transportFail "boom", fun _ => .transportFail "boom",
   fun _ _ => .threw "down"⟩

def row0 : JobRow :=
  { user_id := none, type := "suggest_classify", status := "queued"
    input := some ⟨some "hi"⟩, result := none, error := none }

def st1 : Store := ⟨1, [(0, row0)]⟩

def outEmptyC : ClassifyOut := ⟨none, none, none, none⟩

def oracleOkEmpty : LLMOracle :=
  ⟨fun _ => .ok outEmptyC, fun _ => .ok ⟨none, none⟩, fun _ _ => .threw "down"⟩

/-- Claim C3: every failure of the text-generation work — a transport
error, a non-2xx response (wrapped as OPENAI ERROR), an unparsable
body, or an unknown job type — is caught by runSuggestJob and recorded
on the row as a terminal error state with a non-empty message; every
run ends in done or error (runSuggestJob is total: no oracle outcome
escapes the catch that encloses the body). -/
theorem C3_errorCapture :
    (∀ (cfg : Config) (o : LLMOracle) (st : Store) (id : Nat) (ty : String)
        (inp : Option JobInput) (j : JobRow) (m : String),
        st.lookup id = some j →
        runSuggestJobCore cfg o ty inp = .error m →
        (runSuggestJob cfg o st id ty inp).fst.lookup id =
          some (JobRow.patchError (jsErrString m) (JobRow.patchRunning j)) ∧
        (JobRow.patchError (jsErrString m) (JobRow.patchRunning j)).status
          = "error" ∧
        jsErrString m ≠ "") ∧
    (∀ (cfg : Config) (o : LLMOracle) (st : Store) (id : Nat) (ty : String)
        (inp : Option JobInput) (j : JobRow),
        st.lookup id = some j →
        ∃ j', (runSuggestJob cfg o st id ty inp).fst.lookup id = some j' ∧
          (j'.status = "done" ∨ j'.status = "error")) ∧
    (∀ (cfg : Config) (o : LLMOracle) (ty : String) (inp : Option JobInput),
        ty ≠ "suggest_classify" → ty ≠ "suggest_practice" →
        runSuggestJobCore cfg o ty inp =
          .error ("Unknown job type: " ++ ty)) ∧
    (∀ b : String,
        callOutcome (LLMOutcome.httpFail b : LLMOutcome ClassifyOut) =
          .error ("OPENAI ERROR " ++ b)) ∧
    (∀ m : String,
        callOutcome (LLMOutcome.transportFail m : LLMOutcome ClassifyOut) =
          .error m) ∧
    (∀ m : String,
        callOutcome (LLMOutcome.parseFail m : LLMOutcome ClassifyOut) =
          .error m) := by
  refine ⟨?_, ?_, ?_, fun b => rfl, fun m => rfl, fun m => rfl⟩
  · intro cfg o st id ty inp j m hj hcore
    refine ⟨?_, rfl, ?_⟩
    · simp only [runSuggestJob, hcore]
      rw [lookup_updateRow, lookup_updateRow, hj]
      rfl
    · by_cases hm : m = ""
      · subst hm; decide
      · simp [jsErrString, hm]
  · intro cfg o st id ty inp j hj
    rcases hcore : runSuggestJobCore cfg o ty inp with m | r
    · refine ⟨JobRow.patchError (jsErrString m) (JobRow.patchRunning j),
        ?_, Or.inr rfl⟩
      simp only [runSuggestJob, hcore]
      rw [lookup_updateRow, lookup_updateRow, hj]
      rfl
    · refine ⟨JobRow.patchDone r (JobRow.patchRunning j), ?_, Or.inl rfl⟩
      simp only [runSuggestJob, hcore]
      rw [lookup_updateRow, lookup_updateRow, hj]
      rfl
  · intro cfg o ty inp h1 h2
    simp [runSuggestJobCore, h1, h2]

/-- Claim C3, witness: a transport failure of the classification call
lands the concrete job in the error state with its message. -/
theorem C3_witness :
    (runSuggestJob cfgFull oracleFail st1 0 "suggest_classify"
        (some ⟨some "hi"⟩)).fst.lookup 0 =
      some (JobRow.patchError (jsErrString "boom")
        (JobRow.patchRunning row0)) := by
  exact (C3_errorCapture.1 cfgFull oracleFail st1 0 "suggest_classify"
    (some ⟨some "hi"⟩) row0 "boom" rfl rfl).1

/-- Claim C4: both speech-synthesis fan-outs return one entry per input
sentence (length preserved in every configuration); with a key, entry i
is determined by sentence i and the i-th call alone (input order, not
completion order); a failed call at index i yields null exactly there;
and changing only the i-th call leaves every other entry unchanged. -/
theorem C4_ttsFanout :
    (∀ (k : Bool) (call : Nat → String → TTSOutcome) (lines : List String),
        (synthesizeLinesWithGeminiTTS k call lines).length = lines.length) ∧
    (∀ (c : Bool) (tok : TokenOutcome) (call : Nat → String → TTSOutcome)
        (lines : List String),
        (synthesizeLinesWithVertexTTS c tok call lines).length
          = lines.length) ∧
    (∀ (call : Nat → String → TTSOutcome) (lines : List String) (i : Nat)
        (t : String), lines[i]? = some t →
        (synthesizeLinesWithGeminiTTS true call lines)[i]? =
          some (if t = "" then none else ttsAudioG (call i t))) ∧
    (∀ (call : Nat → String → TTSOutcome) (lines : List String) (i : Nat)
        (t : String), lines[i]? = some t → ttsAudioG (call i t) = none →
        (synthesizeLinesWithGeminiTTS true call lines)[i]? = some none) ∧
    (∀ (call call' : Nat → String → TTSOutcome) (lines : List String)
        (i : Nat) (t : String), lines[i]? = some t →
        call i t = call' i t →
        (synthesizeLinesWithGeminiTTS true call lines)[i]? =
          (synthesizeLinesWithGeminiTTS true call' lines)[i]?) ∧
    (∀ (tokv : String) (call : Nat → String → TTSOutcome)
        (lines : List String) (i : Nat) (t : String),
        lines[i]? = some t →
        (synthesizeLinesWithVertexTTS true (.got (some tokv))
            call lines)[i]? =
          some (if t = "" then none else ttsAudioV (call i t))) := by
  refine ⟨?_, ?_, ?_, ?_, ?_, ?_⟩
  · intro k call lines
    cases lines with
    | nil => rfl
    | cons a tl =>
      cases k <;> simp [synthesizeLinesWithGeminiTTS, mapIdxFrom_length]
  · intro c tok call lines
    cases lines with
    | nil => rfl
    | cons a tl =>
      cases c
      · simp [synthesizeLinesWithVertexTTS]
      · rcases tok with m | tk
        · simp [synthesizeLinesWithVertexTTS]
        · rcases tk with _ | v <;>
            simp [synthesizeLinesWithVertexTTS, mapIdxFrom_length]
  · intro call lines i t h
    cases lines with
    | nil => simp at h
    | cons a tl =>
      simp [synthesizeLinesWithGeminiTTS, mapIdxFrom_getElem?, h]
  · intro call lines i t h h0
    cases lines with
    | nil => simp at h
    | cons a tl =>
      simp [synthesizeLinesWithGeminiTTS, mapIdxFrom_getElem?, h, h0]
  · intro call call' lines i t h hcc
    cases lines with
    | nil => simp at h
    | cons a tl =>
      simp [synthesizeLinesWithGeminiTTS, mapIdxFrom_getElem?, h, hcc]
  · intro tokv call lines i t h
    cases lines with
    | nil => simp at h
    | cons a tl =>
      simp [synthesizeLinesWithVertexTTS, mapIdxFrom_getElem?, h]

def callEx : Nat → String → TTSOutcome :=
  fun i _ => if i = 0 then .okResp [⟨some "AAA", none, none⟩]
             else .threw "down"

/-- Claim C4, witness: two sentences, the first call succeeding and the
second throwing, yield exactly two index-aligned entries with the
failure isolated at index 1. -/
theorem C4_witness :
    (synthesizeLinesWithGeminiTTS true callEx ["가", "나"]).length = 2 ∧
    (synthesizeLinesWithGeminiTTS true callEx ["가", "나"])[0]? =
      some (some "AAA") ∧
    (synthesizeLinesWithGeminiTTS true callEx ["가", "나"])[1]? =
      some none := by
  refine ⟨C4_ttsFanout.1 true callEx ["가", "나"], ?_, ?_⟩
  · have h := C4_ttsFanout.2.2.1 callEx ["가", "나"] 0 "가" rfl
    simpa using h
  · exact C4_ttsFanout.2.2.2.1 callEx ["가", "나"] 1 "나" rfl rfl

/-- Claim C5, counterexample.  The claim states every empty-text request
is rejected with 400 before any collaborator call; but the
/classifysuggest route of the second server.js variant performs no
validation: on empty text it still sends one payload (with empty text)
to the collaborator and answers 200 when the collaborator succeeds. -/
theorem C5_counterexample :
    (v2Classify cfgFull oracleOkEmpty (some "")).snd =
      [(⟨""⟩ : ClassifyUserJson)] ∧
    ([(⟨""⟩ : ClassifyUserJson)] : List ClassifyUserJson) ≠ [] ∧
    (v2Classify cfgFull oracleOkEmpty (some "")).fst.httpStatus = 200 := by
  refine ⟨rfl, by decide, rfl⟩

/-- Claim C5, amended: only the part_000 variant validates input —
there an empty or missing text is answered 400 empty_text with no
collaborator call attempted (and no job exists on that path); the
second server.js variant instead always forwards the (possibly empty)
truncated text to the collaborator. -/
theorem C5_amended (hasKey : Bool)
    (o0 : Part0UserJson → LLMOutcome ClassifyOut)
    (textIn langIn : Option String)
    (h : textIn = none ∨ textIn = some "") :
    part000Classify hasKey o0 textIn langIn =
      (RouteOut.badRequest "empty_text", []) ∧
    (part000Classify hasKey o0 textIn langIn).fst.httpStatus = 400 ∧
    ∀ (o : LLMOracle) (tIn : Option String),
      (v2Classify ⟨true, true⟩ o tIn).snd =
        [(⟨take3000 (tIn.getD "")⟩ : ClassifyUserJson)] := by
  have hmain : ∀ (o : LLMOracle) (tIn : Option String),
      (v2Classify ⟨true, true⟩ o tIn).snd =
        [(⟨take3000 (tIn.getD "")⟩ : ClassifyUserJson)] := by
    intro o tIn
    rcases hc : o.classifyCall (take3000 (tIn.getD "")) with m | b | m | v <;>
      simp [v2Classify, suggestClassifyT, callOutcome, Except.map, hc]
  rcases h with h | h <;> subst h <;> exact ⟨rfl, rfl, hmain⟩

/-- Claim C5, witness: the part_000 route rejects a missing text. -/
theorem C5_witness :
    part000Classify true (fun _ => LLMOutcome.ok outEmptyC) none none =
      (RouteOut.badRequest "empty_text", []) := by
  exact (C5_amended true (fun _ => LLMOutcome.ok outEmptyC) none none
    (Or.inl rfl)).1

/-- Claim C8, counterexample.  The claim requires every category of a
successful classification run to hold a non-empty card list; but a
successful run over a collaborator reply without usable cards returns
ok with all four card lists empty (clean keeps nothing). -/
theorem C8_counterexample :
    (suggestClassifyT cfgFull oracleOkEmpty "hello").fst =
      Except.ok { ok := true, used_model := "gpt-4.1-mini"
                  result := classifyResult 3 outEmptyC } ∧
    (classifyResult 3 outEmptyC).situation.cards = [] := by
  exact ⟨rfl, rfl⟩

/-- Claim C8, amended: every successful classification result contains
the four categories, each card list holds at most TOP_K entries, and
every retained card carries a non-empty text; the lists may however be
empty when the collaborator supplies no usable cards. -/
theorem C8_amended (topk : Nat) (out : ClassifyOut) :
    ((classifyResult topk out).situation.cards.length ≤ topk ∧
      ∀ c, c ∈ (classifyResult topk out).situation.cards → c.text ≠ "") ∧
    ((classifyResult topk out).feeling.cards.length ≤ topk ∧
      ∀ c, c ∈ (classifyResult topk out).feeling.cards → c.text ≠ "") ∧
    ((classifyResult topk out).thought.cards.length ≤ topk ∧
      ∀ c, c ∈ (classifyResult topk out).thought.cards → c.text ≠ "") ∧
    ((classifyResult topk out).behavior.cards.length ≤ topk ∧
      ∀ c, c ∈ (classifyResult topk out).behavior.cards → c.text ≠ "") := by
  refine ⟨⟨?_, ?_⟩, ⟨?_, ?_⟩, ⟨?_, ?_⟩, ⟨?_, ?_⟩⟩ <;>
    first
      | exact clean_length_le _ _
      | exact fun c hc => clean_text_ne _ _ c hc

def outFull : ClassifyOut :=
  ⟨some ⟨some [⟨some "안녕하다."⟩]⟩, none, none, none⟩

/-- Claim C8, witness: a concrete retained card has non-empty text and
the list stays within the bound. -/
theorem C8_witness :
    ((⟨"안녕하다."⟩ : Card).text ≠ "") ∧
    (classifyResult 3 outFull).situation.cards.length ≤ 3 := by
  refine ⟨(C8_amended 3 outFull).1.2 ⟨"안녕하다."⟩ ?_,
    (C8_amended 3 outFull).1.1⟩
  decide

def rawQ : List PItem := [⟨.str "?"⟩]

/-- Claim C9, counterexample.  The claim reads the padding as replacing
every missing usable sentence with the fixed default; but the
suggestPractice variant filters with filter(Boolean), which keeps
entries whose normalized text is empty: a single input sentence that
normalizes to the empty string yields one empty-text entry plus six
defaults, not seven defaults — the empty entry is neither usable nor
the default sentence. -/
theorem C9_counterexample :
    practiceArrV2 rawQ = (⟨""⟩ : Card) :: List.replicate 6 padCardV2 ∧
    ((⟨""⟩ : Card) ≠ padCardV2) ∧ ((⟨""⟩ : Card).text = "") := by
  refine ⟨rfl, by decide, rfl⟩

/-- Claim C9, amended: every practice pipeline returns exactly 7
entries, truncating surplus input beyond the first 7 and padding with
the fixed default sentence; in the suggestPractice variant the count
includes entries whose normalized text is empty (its filter keeps every
element), while the other two variants drop such entries before
padding. -/
theorem C9_amended (raw : List PItem) :
    (practiceArrV2 raw).length = 7 ∧
    practiceArrV2 raw =
      (raw.take 7).map normCard ++
        List.replicate (7 - min 7 raw.length) padCardV2 ∧
    (raw.length ≥ 7 → practiceArrV2 raw = (raw.take 7).map normCard) ∧
    (practiceArrV1 raw).length = 7 ∧
    (part000PracticeArr raw).length = 7 ∧
    padCard0 = padCardV2 := by
  have hlen : ((raw.take 7).map normCard).length = min 7 raw.length := by
    rw [List.length_map, List.length_take]
  have hfilter : ((raw.take 7).map normCard).filter (fun _ => true) =
      (raw.take 7).map normCard := filter_keep_all _
  refine ⟨?_, ?_, ?_, ?_, ?_, by decide⟩
  · rw [practiceArrV2, hfilter]
    exact padTo7_length _ _ (by rw [hlen]; exact Nat.min_le_left _ _)
  · rw [practiceArrV2, hfilter, padTo7, hlen]
  · intro h
    have hm : min 7 raw.length = 7 := Nat.min_eq_left h
    rw [practiceArrV2, hfilter, padTo7, hlen, hm]
    simp
  · rw [practiceArrV1]
    refine padTo7_length _ _ ?_
    calc (((raw.take 7).map normCard).filter (fun c => c.text ≠ "")).length
        ≤ ((raw.take 7).map normCard).length := List.length_filter_le _ _
      _ ≤ 7 := by rw [hlen]; exact Nat.min_le_left _ _
  · rw [part000PracticeArr]
    refine padTo7_length _ _ ?_
    calc ((raw.take 7).filterMap part000PracticeItem).length
        ≤ (raw.take 7).length := List.length_filterMap_le _ _
      _ ≤ 7 := by rw [List.length_take]; exact Nat.min_le_left _ _

def raw9 : List PItem := List.replicate 9 ⟨.str "사과다"⟩

/-- Claim C9, witness: nine input sentences are truncated to the first
seven with no padding, and the result still has exactly 7 entries. -/
theorem C9_witness :
    practiceArrV2 raw9 = (raw9.take 7).map normCard ∧
    (practiceArrV2 raw9).length = 7 := by
  exact ⟨(C9_amended raw9).2.2.1 (by decide), (C9_amended raw9).1⟩

/-- Claim C10: the text sent to the collaborator is the first 3000
characters of the input — the truncated payload never exceeds 3000
characters, and two inputs agreeing on their first 3000 characters
produce identical collaborator interactions (hence identical behavior)
for suggestClassify, suggestPractice and the part_000 classify
route. -/
theorem C10_truncation (t t₁ t₂ : String)
    (h : t₁.data.take 3000 = t₂.data.take 3000) :
    (take3000 t).length ≤ 3000 ∧
    take3000 t₁ = take3000 t₂ ∧
    (∀ (cfg : Config) (o : LLMOracle),
      suggestClassifyT cfg o t₁ = suggestClassifyT cfg o t₂) ∧
    (∀ (cfg : Config) (o : LLMOracle),
      suggestPracticeT cfg o t₁ = suggestPracticeT cfg o t₂) ∧
    (∀ (hasKey : Bool) (o0 : Part0UserJson → LLMOutcome ClassifyOut)
        (langIn : Option String),
      part000Classify hasKey o0 (some t₁) langIn =
        part000Classify hasKey o0 (some t₂) langIn) := by
  have htake : take3000 t₁ = take3000 t₂ := by
    unfold take3000; exact congrArg _ h
  refine ⟨?_, htake, ?_, ?_, ?_⟩
  · show (t.data.take 3000).length ≤ 3000
    rw [List.length_take]; exact Nat.min_le_left _ _
  · intro cfg o; simp only [suggestClassifyT, htake]
  · intro cfg o; simp only [suggestPracticeT, htake]
  · intro hasKey o0 langIn; simp only [part000Classify, Option.getD, htake]

def longA : String := ⟨List.replicate 3001 'a'⟩

def longB : String := ⟨List.replicate 3000 'a' ++ ['b']⟩

/-- Claim C10, witness: two inputs longer than 3000 characters that
differ only after position 3000 truncate to the same payload text. -/
theorem C10_witness :
    take3000 longA = take3000 longB ∧ (take3000 longA).length ≤ 3000 := by
  have h : longA.data.take 3000 = longB.data.take 3000 := by
    show (List.replicate 3001 'a').take 3000 =
      ((List.replicate 3000 'a') ++ ['b']).take 3000
    rw [List.take_replicate, List.take_left' (List.length_replicate 3000 'a')]
    norm_num
  have hc := C10_truncation longA longA longB h
  exact ⟨hc.2.1, hc.1⟩

end OnBackend
